import Mathlib

/-!
Shallow embedding of the document-rendering engine in `services/exports.py`
(font resolution, RTL shaping, cell formatting, column-width allocation,
table chunking, PDF composition with its two-level fallback guard).

Strings are modelled as `List Char` (Unicode code points), pandas string
cells as `List Char` values, byte buffers as `List Nat`, floating point
quantities as `ℚ`.  External collaborators (the reportlab renderer, the
`pdfmetrics.stringWidth` font metric, the `arabic_reshaper`/`bidi` shaper,
the filesystem, the clock) are passed in as explicit function parameters.
-/

set_option autoImplicit false

namespace Exports

/-- Test of `ARABIC_RE`, one code point of the Arabic block.  The source uses it as the Unicode range test for right-to-left script. -/
def isArabicChar (c : Char) : Bool :=
  0x0600 ≤ c.toNat && c.toNat ≤ 0x06FF

/-- A code point of a right-to-left script (Hebrew, Arabic, Syriac, Thaana,
Arabic Supplement / Extended-A, presentation forms).  Used only to state
claims phrased in terms of "right-to-left code points"; the source itself
tests only the Arabic block via `ARABIC_RE`. -/
def isRTLChar (c : Char) : Bool :=
  (0x0590 ≤ c.toNat && c.toNat ≤ 0x05FF) ||
  (0x0600 ≤ c.toNat && c.toNat ≤ 0x06FF) ||
  (0x0700 ≤ c.toNat && c.toNat ≤ 0x074F) ||
  (0x0750 ≤ c.toNat && c.toNat ≤ 0x077F) ||
  (0x0780 ≤ c.toNat && c.toNat ≤ 0x07BF) ||
  (0x08A0 ≤ c.toNat && c.toNat ≤ 0x08FF) ||
  (0xFB1D ≤ c.toNat && c.toNat ≤ 0xFDFF) ||
  (0xFE70 ≤ c.toNat && c.toNat ≤ 0xFEFF)

theorem isArabicChar_isRTLChar {c : Char} (h : isArabicChar c = true) :
    isRTLChar c = true := by
  unfold isArabicChar at h
  unfold isRTLChar
  simp only [Bool.and_eq_true, decide_eq_true_eq] at h
  simp only [Bool.or_eq_true, Bool.and_eq_true, decide_eq_true_eq]
  tauto

/-- Whether `ARABIC_RE.search(text)` succeeds: some character is in the range. -/
def hasArabic (s : List Char) : Bool :=
  s.any isArabicChar

/-- Model of `_shape_if_rtl(text)`: empty or Arabic-free text is returned unchanged;
otherwise the reshape+bidi pipeline runs.  `shaper` stands for
`get_display(arabic_reshaper.reshape(·))`; when the optional libraries are
missing or raise, the source returns the text unchanged, which corresponds
to instantiating `shaper` with the identity. -/
def shape_if_rtl (shaper : List Char → List Char) (text : List Char) : List Char :=
  if text.isEmpty then text
  else if !hasArabic text then text
  else shaper text

/-- Model of `_is_arabic(text)`, that is `bool(ARABIC_RE.search(text or ""))`. -/
def is_arabic (text : List Char) : Bool :=
  hasArabic text

/-- Paragraph alignments used by the module (`TA_LEFT`, `TA_RIGHT`, `TA_CENTER`). -/
inductive TAlign where
  | left
  | right
  | center
deriving DecidableEq

/-- A `ParagraphStyle`, keeping only the identity-relevant fields: the style
name and its alignment. -/
structure PStyle where
  sname : List Char
  alignment : TAlign
deriving DecidableEq

/-- Style `base_cell = ParagraphStyle("Cell", ..., alignment=TA_LEFT)`. -/
def base_cell : PStyle :=
  ⟨"Cell".toList, .left⟩

/-- Style `ar_cell = ParagraphStyle("CellAR", parent=base_cell, alignment=TA_RIGHT)`. -/
def ar_cell : PStyle :=
  ⟨"CellAR".toList, .right⟩

/-- Style `Normal` from the sample style sheet (left-aligned). -/
def normal_style : PStyle :=
  ⟨"Normal".toList, .left⟩

/-- Style `title_style = ParagraphStyle("LandscapeTitle", ..., alignment=TA_CENTER)`. -/
def title_style : PStyle :=
  ⟨"LandscapeTitle".toList, .center⟩

/-- A reportlab `Paragraph`: its (already shaped) text and its style. -/
structure Para where
  text : List Char
  style : PStyle
deriving DecidableEq

/-- Model of `s.replace("\n", "<br/>")`. -/
def brReplace (s : List Char) : List Char :=
  s.flatMap (fun c => if c = '\n' then "<br/>".toList else [c])

/-- Model of `_paragraphize(value, base_style, ar_style)`: display string (empty for
`None`), shape, classify the shaped string, wrap with `<br/>` line breaks. -/
def paragraphize (shaper : List Char → List Char) (value : Option (List Char))
    (base_style ar_style : PStyle) : Para :=
  let s := value.getD []
  let s := shape_if_rtl shaper s
  let style := if is_arabic s then ar_style else base_style
  ⟨brReplace s, style⟩

/-! Section: Column Width Allocator (`_auto_col_widths`) -/

/-- Pointwise maximum update of the accumulator `max_w` with the measured widths of one row, mirroring `for i, cell in enumerate(row): if w > max_w[i]`.
A row shorter than the accumulator leaves the remaining entries unchanged.
(A row longer than the header would raise `IndexError` in the source; the
model truncates, which is only reached on non-rectangular data.) -/
def maxInto : List ℚ → List ℚ → List ℚ
  | acc, [] => acc
  | [], _ => []
  | a :: acc, w :: ws => max a w :: maxInto acc ws

/-- The per-column maxima of measured cell widths over the sampled rows
(`data[:1] + data[1:301]`), starting from `[0.0] * num_cols`;
`stringWidth text font_name font_size` stands for `pdfmetrics.stringWidth`.
Note `str(cell or "")` is the identity on string cells. -/
def measuredMaxWidths (stringWidth : List Char → List Char → ℚ → ℚ)
    (data : List (List (List Char))) (font_name : List Char) (font_size : ℚ) : List ℚ :=
  let num_cols := (data.headD []).length
  let sample_rows := data.take 1 ++ (data.drop 1).take 300
  let pad : ℚ := 12
  sample_rows.foldl
    (fun acc row => maxInto acc (row.map (fun cell => stringWidth cell font_name font_size + pad)))
    (List.replicate num_cols 0)

/-- The clamped pre-scaling widths
`raw = [max(MIN_W, min(MAX_WS[i], max_w[i] or MIN_W)) for i in range(num_cols)]`
with `MIN_W, MAX_W = 40, 240` and `MAX_WS[prefer_wide_idx] = 320`. -/
def rawColWidths (stringWidth : List Char → List Char → ℚ → ℚ)
    (data : List (List (List Char))) (font_name : List Char) (font_size : ℚ)
    (prefer_wide_idx : Option Nat) : List ℚ :=
  let num_cols := (data.headD []).length
  let max_w := measuredMaxWidths stringWidth data font_name font_size
  (List.range num_cols).map (fun i =>
    let cap : ℚ := if prefer_wide_idx = some i then 320 else 240
    let m := max_w.getD i 0
    max 40 (min cap (if m = 0 then 40 else m)))

/-- Model of `_auto_col_widths(data, font_name, font_size, avail_width, prefer_wide_idx)`:
clamp, then scale by `avail_width / (sum(raw) or 1.0)`. -/
def auto_col_widths (stringWidth : List Char → List Char → ℚ → ℚ)
    (data : List (List (List Char))) (font_name : List Char) (font_size : ℚ)
    (avail_width : ℚ) (prefer_wide_idx : Option Nat) : List ℚ :=
  let raw := rawColWidths stringWidth data font_name font_size prefer_wide_idx
  let total := if raw.sum = 0 then 1 else raw.sum
  let scale := avail_width / total
  raw.map (fun w => w * scale)

/-! Section: Page geometry -/

/-- One centimetre in points: `cm = 72 / 2.54`. -/
def cmPt : ℚ :=
  3600 / 127

/-- Constant `A4` in points, `(210mm, 297mm)` at 72dpi. -/
def A4 : ℚ × ℚ :=
  (75600 / 127, 106920 / 127)

/-- Model of `reportlab.lib.pagesizes.landscape`: `(max(pagesize), min(pagesize))`. -/
def landscapeOf (p : ℚ × ℚ) : ℚ × ℚ :=
  (max p.1 p.2, min p.1 p.2)

/-- Expression `pagesize = landscape(A4) if force_landscape else A4`, the
orientation choice of `dataframe_to_pdf_bytes` (and, with `landscape_mode`,
in `make_doc_with_header_footer`).  It reads only the flag; the dataset is
accepted here to state that the choice is independent of it. -/
def composerPagesize (force_landscape : Bool) (_columns : List (List Char)) : ℚ × ℚ :=
  if force_landscape then landscapeOf A4 else A4

/-- Value of `doc.width` for the `SimpleDocTemplate` built by `dataframe_to_pdf_bytes`:
page width minus the 2.0cm left and right margins. -/
def docAvailWidth (force_landscape : Bool) (columns : List (List Char)) : ℚ :=
  (composerPagesize force_landscape columns).1 - (2 * cmPt + 2 * cmPt)

/-! Section: Dataset, flowables, Table Chunker, Document Composer -/

/-- The rectangular payload handed to `dataframe_to_pdf_bytes`: a pandas
DataFrame whose column labels and cell values have already been coerced to
display strings (`str(c)` / `astype(str)`), with `NaN` filled by `""`. -/
structure Dataset where
  columns : List (List Char)
  rows : List (List (List Char))
deriving DecidableEq

/-- Model of `df.empty`: a DataFrame is empty when either axis has length zero. -/
def dfEmpty (df : Dataset) : Bool :=
  df.rows.isEmpty || df.columns.isEmpty

/-- The platypus flowables appended to `elements`. -/
inductive Flowable where
  | par (p : Para)
  | spacer
  | pageBreak
  | table (cells : List (List Para)) (colWidths : List ℚ) (repeatRows : Nat)
deriving DecidableEq

/-- Whether a flowable is a table. -/
def Flowable.isTable : Flowable → Bool
  | .table _ _ _ => true
  | _ => false

/-- First row of a table flowable (its header row). -/
def tableFirstRow : Flowable → Option (List Para)
  | .table cells _ _ => cells.head?
  | _ => none

/-- Number of rows of a table flowable, header included. -/
def tableRowCount : Flowable → Option Nat
  | .table cells _ _ => some cells.length
  | _ => none

/-- Field `repeatRows` of a table flowable. -/
def tableRepeatRows : Flowable → Option Nat
  | .table _ _ r => some r
  | _ => none

/-- An element list free of tables (the shape of every fallback document). -/
def tableFree (es : List Flowable) : Prop :=
  ∀ f ∈ es, f.isTable = false

/-- Result of `_shape_df_for_rtl` on the column labels. -/
def shapedHeaders (shaper : List Char → List Char) (df : Dataset) : List (List Char) :=
  df.columns.map (shape_if_rtl shaper)

/-- Result of `_shape_df_for_rtl` on the cells, row by row. -/
def shapedRows (shaper : List Char → List Char) (df : Dataset) : List (List (List Char)) :=
  df.rows.map (fun r => r.map (shape_if_rtl shaper))

/-- Notion of whitespace used by Python `str.strip`, restricted to the common
ASCII whitespace characters (sufficient for the header-name comparison). -/
def isPykSpace (c : Char) : Bool :=
  c = ' ' || c = '\t' || c = '\n' || c = '\x0b' || c = '\x0c' || c = '\r'

/-- Model of `h.strip()` (ASCII whitespace). -/
def stripWs (s : List Char) : List Char :=
  (s.dropWhile isPykSpace).reverse.dropWhile isPykSpace |>.reverse

/-- Model of `h.lower()` restricted to ASCII letters (the compared names are ASCII). -/
def asciiLower (s : List Char) : List Char :=
  s.map (fun c => if 'A' ≤ c ∧ c ≤ 'Z' then Char.ofNat (c.toNat + 32) else c)

/-- The nominated wide-column names
`["titles_ay", "title", "book_title", "titles"]`. -/
def preferNames : List (List Char) :=
  ["titles_ay".toList, "title".toList, "book_title".toList, "titles".toList]

/-- The `prefer_idx` scan: first header whose stripped, lowered form is one
of the nominated names. -/
def preferIdx (headers : List (List Char)) : Option Nat :=
  headers.findIdx? (fun h => preferNames.contains (asciiLower (stripWs h)))

/-- Model of `make_table_chunk(chunk_rows)`: header row of paragraphized headers,
then one paragraphized row per chunk row; a `LongTable` with the computed
column widths and `repeatRows=1`. -/
def make_table_chunk (shaper : List Char → List Char) (headers : List (List Char))
    (col_widths : List ℚ) (chunk_rows : List (List (List Char))) : Flowable :=
  .table
    ((headers.map (fun h => paragraphize shaper (some h) base_cell ar_cell)) ::
      chunk_rows.map (fun r => r.map (fun v => paragraphize shaper (some v) base_cell ar_cell)))
    col_widths 1

/-- The chunking loop
`for i in range(0, len(rows), chunk_size): append(table); append(Spacer);
if i + chunk_size < len(rows): append(PageBreak())`, written with explicit
fuel (the loop runs at most `len rows` iterations when `0 < chunk_size`). -/
def chunkLoop (chunk_size : Nat) (mk : List (List (List Char)) → Flowable) :
    Nat → List (List (List Char)) → List Flowable
  | 0, _ => []
  | fuel + 1, rows =>
    if rows.isEmpty then []
    else
      mk (rows.take chunk_size) :: .spacer ::
        ((if chunk_size < rows.length then [.pageBreak] else []) ++
          chunkLoop chunk_size mk fuel (rows.drop chunk_size))

/-- The chunk loop at its natural fuel. -/
def buildChunks (chunk_size : Nat) (mk : List (List (List Char)) → Flowable)
    (rows : List (List (List Char))) : List Flowable :=
  chunkLoop chunk_size mk rows.length rows

/-- The column widths computed by the composer:
`_auto_col_widths(data_str, font_name, 9, avail_width, prefer_wide_idx=prefer_idx)`
over `data_str = [headers] + rows` (after RTL shaping). -/
def composerColWidths (stringWidth : List Char → List Char → ℚ → ℚ)
    (shaper : List Char → List Char) (font_name : List Char) (df : Dataset)
    (force_landscape : Bool) : List ℚ :=
  auto_col_widths stringWidth (shapedHeaders shaper df :: shapedRows shaper df)
    font_name 9 (docAvailWidth force_landscape df.columns)
    (preferIdx (shapedHeaders shaper df))

/-- The element list of the happy path: shaped title, spacer, then the
chunked tables with spacers and page breaks. -/
def mainElements (stringWidth : List Char → List Char → ℚ → ℚ)
    (shaper : List Char → List Char) (font_name title : List Char) (df : Dataset)
    (force_landscape : Bool) : List Flowable :=
  .par ⟨shape_if_rtl shaper title, title_style⟩ :: .spacer ::
    buildChunks 100
      (make_table_chunk shaper (shapedHeaders shaper df)
        (composerColWidths stringWidth shaper font_name df force_landscape))
      (shapedRows shaper df)

/-- The element list of the empty-Dataset path: shaped title, spacer, and
the `"No data available"` paragraph. -/
def emptyElements (shaper : List Char → List Char) (title : List Char) : List Flowable :=
  [.par ⟨shape_if_rtl shaper title, title_style⟩, .spacer,
   .par ⟨shape_if_rtl shaper "No data available".toList, normal_style⟩]

/-- The first-level fallback (`except` around the chunk loop): three notice
paragraphs, then at most the first 50 rows as `" | "`-joined paragraphs.
The exception text is `e`; `rows` are the shaped rows. -/
def fallbackElements (shaper : List Char → List Char) (e : List Char)
    (rows : List (List (List Char))) : List Flowable :=
  [.par ⟨shape_if_rtl shaper "⚠️ Error generating table:".toList, normal_style⟩,
   .par ⟨shape_if_rtl shaper e, normal_style⟩,
   .par ⟨shape_if_rtl shaper "Partial data shown below:".toList, normal_style⟩] ++
    (rows.take 50).map
      (fun r => .par ⟨shape_if_rtl shaper (List.intercalate " | ".toList r), normal_style⟩)

/-- The second-level fallback (`except` around `doc.build`): only the
failure notice and the exception text, no data rows. -/
def fallback2Elements (shaper : List Char → List Char) (e : List Char) : List Flowable :=
  [.par ⟨shape_if_rtl shaper "Report generation failed due to layout limits.".toList, normal_style⟩,
   .par ⟨shape_if_rtl shaper e, normal_style⟩]

/-! Section: Clock model (`datetime.date` / `datetime.datetime`) -/

/-- A `datetime.date`. -/
structure PyDate where
  year : Nat
  month : Nat
  day : Nat
deriving DecidableEq

/-- A `datetime.datetime`, to minute precision (the finest the decorator
formats). -/
structure PyDateTime where
  year : Nat
  month : Nat
  day : Nat
  hour : Nat
  minute : Nat
deriving DecidableEq

/-- Decimal digits, zero-padded on the left to two places (`%d`, `%H`, ...). -/
def pad2 (n : Nat) : List Char :=
  let s := Nat.toDigits 10 n
  List.replicate (2 - s.length) '0' ++ s

/-- Decimal digits, zero-padded on the left to four places (`%Y`). -/
def pad4 (n : Nat) : List Char :=
  let s := Nat.toDigits 10 n
  List.replicate (4 - s.length) '0' ++ s

/-- Month abbreviations of `%b` (C locale). -/
def monthAbbr (m : Nat) : List Char :=
  (["Jan", "Feb", "Mar", "Apr", "May", "Jun",
    "Jul", "Aug", "Sep", "Oct", "Nov", "Dec"].map String.toList).getD (m - 1) []

/-- Model of `datetime.now().strftime("%d-%b-%Y %H:%M")`, the footer timestamp. -/
def formatTimestamp (t : PyDateTime) : List Char :=
  pad2 t.day ++ "-".toList ++ monthAbbr t.month ++ "-".toList ++ pad4 t.year ++
    " ".toList ++ pad2 t.hour ++ ":".toList ++ pad2 t.minute

/-- Model of `str(h.year)[-2:]`, the last two characters of a year string. -/
def lastTwo (s : List Char) : List Char :=
  s.drop (s.length - 2)

/-- Model of `_hijri_date_short(d)`: `"DD-MM-YY H"` from the Hijri conversion, or
the Gregorian `d.strftime("%d-%m-%y")` when `hijri_converter` is
unavailable or raises (`hijriConv` returns the converted `(year, month,
day)` or `none` for that failure). -/
def hijri_date_short (hijriConv : PyDate → Option (Nat × Nat × Nat)) (d : PyDate) : List Char :=
  match hijriConv d with
  | some (hy, hm, hd) =>
    pad2 hd ++ "-".toList ++ pad2 hm ++ "-".toList ++ lastTwo (Nat.toDigits 10 hy) ++ " H".toList
  | none => pad2 d.day ++ "-".toList ++ pad2 d.month ++ "-".toList ++ pad2 (d.year % 100)

/-! Section: Page Decorator, the `_on_page` callback of `make_doc_with_header_footer` -/

/-- The canvas operations `_on_page` performs, in order. -/
inductive DrawOp where
  | saveState
  | restoreState
  | setFont (fname : List Char) (size : ℚ)
  | setLineWidth (w : ℚ)
  | line (x1 y1 x2 y2 : ℚ)
  | drawCentredString (x y : ℚ) (text : List Char)
  | drawRightString (x y : ℚ) (text : List Char)
  | drawString (x y : ℚ) (text : List Char)
  | drawImage (path : List Char) (x y w h : ℚ)
deriving DecidableEq

/-- The `_on_page(canvas, doc_)` callback returned by
`make_doc_with_header_footer`: header rule, centred shaped title, Hijri (or
fallback Gregorian) date on the right, optional logo, footer rule, centred
page number, and the `datetime.now()` timestamp on the left.  `logoInfo`
carries the logo path and its aspect ratio when the path exists and loads
(`none` otherwise, including the swallowed `ImageReader` failure);
`lm`/`tm`/`bm`/`w`/`h` are `doc_.leftMargin`, `topMargin`, `bottomMargin`,
`width`, `height`. -/
def on_page (hijriConv : PyDate → Option (Nat × Nat × Nat))
    (font_name shaped_title : List Char) (show_date : Bool)
    (logoInfo : Option (List Char × ℚ)) (lm tm bm w h : ℚ)
    (today : PyDate) (now : PyDateTime) (page_num : Nat) : List DrawOp :=
  let hijri_date := if show_date then hijri_date_short hijriConv today else []
  [DrawOp.saveState, DrawOp.setFont font_name 9,
   DrawOp.setLineWidth (1 / 2),
   DrawOp.line lm (h + tm - 15) (w + lm) (h + tm - 15),
   DrawOp.setFont font_name 10,
   DrawOp.drawCentredString (w / 2 + lm) (h + tm - 12) shaped_title] ++
  (if hijri_date.isEmpty then []
   else [DrawOp.setFont font_name 8,
         DrawOp.drawRightString (w + lm) (h + tm - 12) hijri_date]) ++
  (match logoInfo with
   | some (path, aspect) =>
     [DrawOp.drawImage path lm (h + tm - (5 / 2 * cmPt) * aspect - 5)
       (5 / 2 * cmPt) ((5 / 2 * cmPt) * aspect)]
   | none => []) ++
  [DrawOp.setLineWidth (1 / 2),
   DrawOp.line lm (bm + 15) (w + lm) (bm + 15),
   DrawOp.setFont font_name 8,
   DrawOp.drawCentredString (w / 2 + lm) (bm - 5) ("Page ".toList ++ Nat.toDigits 10 page_num),
   DrawOp.drawString lm (bm - 5) (formatTimestamp now),
   DrawOp.restoreState]

/-- Model of `dataframe_to_pdf_bytes(title, df, force_landscape)`.

External effects are explicit parameters: `now` is the process clock (the
body never reads it — `datetime.now()` is only called by the page-decorator
callback of `make_doc_with_header_footer`, not here); `build` is
`doc.build` followed by `output.getvalue()`, returning bytes or raising
(`Except.error` carries `str(e)`); `chunkFail` is the oracle for whether
the chunk-building loop raises, and with which message.  The empty-Dataset
path builds outside any `try`; on the main path a failing build is retried
once on the bare second-level fallback, whose own failure propagates. -/
def dataframe_to_pdf_bytes (now : PyDateTime) (shaper : List Char → List Char)
    (stringWidth : List Char → List Char → ℚ → ℚ)
    (build : List Flowable → Except (List Char) (List Nat))
    (chunkFail : Option (List Char)) (font_name title : List Char) (df : Dataset)
    (force_landscape : Bool) : Except (List Char) (List Nat) :=
  if dfEmpty df then build (emptyElements shaper title)
  else
    let elements :=
      match chunkFail with
      | none => mainElements stringWidth shaper font_name title df force_landscape
      | some e => fallbackElements shaper e (shapedRows shaper df)
    match build elements with
    | .ok b => .ok b
    | .error e2 => build (fallback2Elements shaper e2)

/-! Section: Font Resolver (`_ensure_font_registered`) -/

/-- Model of `os.path.basename` (posix): everything after the last slash. -/
def pyBasename (p : List Char) : List Char :=
  (p.reverse.takeWhile (fun c => c ≠ '/')).reverse

/-- The stem of `os.path.splitext`: cut at the last `'.'`, unless every
character before it is itself a dot (then no extension is split off). -/
def pySplitextStem (s : List Char) : List Char :=
  let extLen := (s.reverse.takeWhile (fun c => c ≠ '.')).length
  if extLen = s.length then s
  else
    let stem := s.take (s.length - extLen - 1)
    if stem.all (fun c => c = '.') then s else stem

/-- The candidate-scan loop of `_ensure_font_registered`: skip empty or
missing paths, try to register each existing one (`register p = true` means
`pdfmetrics.registerFont` succeeded, `false` that it raised and was
swallowed), stop at the first success, fall back to `"Helvetica"`.
Returns the resolved font name and the list of paths on which registration
was attempted. -/
def resolveFont (pathExists register : List Char → Bool) :
    List (List Char) → List Char × List (List Char)
  | [] => ("Helvetica".toList, [])
  | p :: rest =>
    if !p.isEmpty && pathExists p then
      if register p then (pySplitextStem (pyBasename p), [p])
      else
        let r := resolveFont pathExists register rest
        (r.1, p :: r.2)
    else resolveFont pathExists register rest

/-- Model of `_ensure_font_registered()` with the module-global cache
`REGISTERED_FONT_NAME` passed and returned explicitly.  A truthy cached
name short-circuits; otherwise the candidate scan runs and its result is
cached.  Returns `(font name, new cache, registration attempts)`. -/
def ensure_font_registered (candidates : List (List Char))
    (pathExists register : List Char → Bool) (cache : Option (List Char)) :
    List Char × Option (List Char) × List (List Char) :=
  match cache with
  | some n =>
    if !n.isEmpty then (n, some n, [])
    else
      let r := resolveFont pathExists register candidates
      (r.1, some r.1, r.2)
  | none =>
    let r := resolveFont pathExists register candidates
    (r.1, some r.1, r.2)

/-- The six fixed entries of `FONT_CANDIDATES`; the seventh
(`os.path.expanduser` of a Windows fonts path) is environment-dependent and
passed as `winFont`. -/
def FONT_CANDIDATES (winFont : List Char) : List (List Char) :=
  ["static/fonts/NotoNaskhArabic-Regular.ttf".toList,
   "static/fonts/Amiri-Regular.ttf".toList,
   "static/fonts/DejaVuSans.ttf".toList,
   "/usr/share/fonts/truetype/noto/NotoNaskhArabic-Regular.ttf".toList,
   "/usr/share/fonts/truetype/amiri/Amiri-Regular.ttf".toList,
   "/usr/share/fonts/truetype/dejavu/DejaVuSans.ttf".toList,
   winFont]

/-! Theorems for the claims follow. -/

/-- C6: the Script Shaper is the identity on every input without
right-to-left code points (in particular without Arabic-block code points),
whatever the underlying reshape+bidi pipeline does, and on the empty
string. -/
theorem shape_if_rtl_identity_on_ltr (shaper : List Char → List Char) (s : List Char)
    (h : ∀ c ∈ s, isRTLChar c = false) :
    shape_if_rtl shaper s = s ∧ shape_if_rtl shaper [] = [] := by
  refine ⟨?_, rfl⟩
  unfold shape_if_rtl
  split
  · rfl
  · split
    · rfl
    · rename_i hne har
      exfalso
      have har' : hasArabic s = true := by simpa using har
      obtain ⟨c, hc, hca⟩ := List.any_eq_true.mp har'
      exact absurd (isArabicChar_isRTLChar hca) (by simp [h c hc])

/-- C6 witness: a concrete pure-LTR string is returned unchanged even under
a shaper that rewrites everything. -/
theorem shape_if_rtl_identity_on_ltr_witness :
    (∀ c ∈ "hello 123".toList, isRTLChar c = false) ∧
    (shape_if_rtl (fun s => 'X' :: s) "hello 123".toList = "hello 123".toList ∧
      shape_if_rtl (fun s => 'X' :: s) [] = []) :=
  ⟨by decide, shape_if_rtl_identity_on_ltr (fun s => 'X' :: s) "hello 123".toList (by decide)⟩

/-- C7: the Cell Formatter decides alignment per cell: the display string is
the (null-coalesced) value, shaped, with newlines becoming `<br/>` breaks,
and the right-aligned style `ar_cell` is chosen exactly when the shaped
string fires the right-to-left range test of the module; otherwise the
left-aligned `base_cell` is chosen. -/
theorem paragraphize_per_cell_alignment (shaper : List Char → List Char)
    (value : Option (List Char)) :
    ((paragraphize shaper value base_cell ar_cell).style.alignment = TAlign.right ↔
      is_arabic (shape_if_rtl shaper (value.getD [])) = true) ∧
    ((paragraphize shaper value base_cell ar_cell).style.alignment = TAlign.left ↔
      is_arabic (shape_if_rtl shaper (value.getD [])) = false) ∧
    (paragraphize shaper value base_cell ar_cell).text
      = brReplace (shape_if_rtl shaper (value.getD [])) ∧
    paragraphize shaper none base_cell ar_cell
      = paragraphize shaper (some []) base_cell ar_cell ∧
    (∀ a b : List Char,
      brReplace (a ++ '\n' :: b) = brReplace a ++ "<br/>".toList ++ brReplace b) := by
  refine ⟨?_, ?_, ?_, rfl, ?_⟩
  · unfold paragraphize
    cases h : is_arabic (shape_if_rtl shaper (value.getD [])) <;>
      simp [h, base_cell, ar_cell]
  · unfold paragraphize
    cases h : is_arabic (shape_if_rtl shaper (value.getD [])) <;>
      simp [h, base_cell, ar_cell]
  · unfold paragraphize
    simp
  · intro a b
    simp [brReplace]

theorem landscapeA4_ne_A4 : landscapeOf A4 ≠ A4 := by
  intro h
  have h1 := congrArg Prod.fst h
  have hle : ((75600 : ℚ) / 127) ≤ 106920 / 127 := by norm_num
  rw [show landscapeOf A4 = (max (75600 / 127) (106920 / 127), min (75600 / 127) (106920 / 127)) from rfl,
    show A4 = (75600 / 127, 106920 / 127) from rfl] at h1
  simp only [max_eq_right hle] at h1
  norm_num at h1

/-- C9 counterexample: with the default `force_landscape=True`, a dataset
with a single narrow column is still rendered landscape, not portrait. -/
theorem composerPagesize_not_portrait_for_narrow :
    composerPagesize true [['c']] = landscapeOf A4 ∧ landscapeOf A4 ≠ A4 :=
  ⟨rfl, landscapeA4_ne_A4⟩

/-- C9 amended: the page orientation is decided solely by the
`force_landscape` flag (default `True`), independently of the column count of the
dataset or width: landscape A4 when the flag is set, portrait A4 when
the caller clears it. -/
theorem composerPagesize_flag_only (force_landscape : Bool)
    (cols cols' : List (List Char)) :
    composerPagesize force_landscape cols = composerPagesize force_landscape cols' ∧
    composerPagesize true cols = landscapeOf A4 ∧
    composerPagesize false cols = A4 ∧
    landscapeOf A4 ≠ A4 := by
  refine ⟨?_, rfl, rfl, landscapeA4_ne_A4⟩
  cases force_landscape <;> rfl

/-- The texts painted by `canvas.drawString` in a draw-op list. -/
def drawnStrings (ops : List DrawOp) : List (List Char) :=
  ops.filterMap fun op =>
    match op with
    | .drawString _ _ t => some t
    | _ => none

/-- C4 counterexample: the page-decorator callback of
`make_doc_with_header_footer` draws `datetime.now()`, so two invocations
with identical title, geometry and page number but clock readings one
minute apart draw different content — the decorated document is not
byte-identical across calls. -/
theorem on_page_differs_across_times :
    on_page (fun _ => none) "F".toList "T".toList false none 1 1 1 10 10
        ⟨2026, 1, 1⟩ ⟨2026, 1, 1, 10, 0⟩ 1 ≠
      on_page (fun _ => none) "F".toList "T".toList false none 1 1 1 10 10
        ⟨2026, 1, 1⟩ ⟨2026, 1, 1, 10, 1⟩ 1 :=
  fun h => absurd (congrArg drawnStrings h) (by decide)

/-- C4 amended: `dataframe_to_pdf_bytes` itself never reads the clock — its
output is byte-identical across calls at different times given the same
title, dataset, flag, shaper, font metrics and renderer; only the per-page callback of the decorated
variant is time-dependent. -/
theorem dataframe_to_pdf_bytes_time_invariant (now now' : PyDateTime)
    (shaper : List Char → List Char) (stringWidth : List Char → List Char → ℚ → ℚ)
    (build : List Flowable → Except (List Char) (List Nat))
    (chunkFail : Option (List Char)) (font_name title : List Char) (df : Dataset)
    (force_landscape : Bool) :
    dataframe_to_pdf_bytes now shaper stringWidth build chunkFail font_name title df
        force_landscape =
      dataframe_to_pdf_bytes now' shaper stringWidth build chunkFail font_name title df
        force_landscape := rfl

/-! Section: Width-plan lemmas (C2, C3) -/

theorem rawColWidths_forall_ge (stringWidth : List Char → List Char → ℚ → ℚ)
    (data : List (List (List Char))) (font_name : List Char) (font_size : ℚ)
    (prefer_wide_idx : Option Nat) :
    ∀ w ∈ rawColWidths stringWidth data font_name font_size prefer_wide_idx, 40 ≤ w := by
  intro w hw
  unfold rawColWidths at hw
  simp only [List.mem_map] at hw
  obtain ⟨i, _, rfl⟩ := hw
  exact le_max_left _ _

theorem rawColWidths_length (stringWidth : List Char → List Char → ℚ → ℚ)
    (data : List (List (List Char))) (font_name : List Char) (font_size : ℚ)
    (prefer_wide_idx : Option Nat) :
    (rawColWidths stringWidth data font_name font_size prefer_wide_idx).length
      = (data.headD []).length := by
  unfold rawColWidths
  simp

theorem rawColWidths_sum_pos (stringWidth : List Char → List Char → ℚ → ℚ)
    (data : List (List (List Char))) (font_name : List Char) (font_size : ℚ)
    (prefer_wide_idx : Option Nat) (hcols : 0 < (data.headD []).length) :
    0 < (rawColWidths stringWidth data font_name font_size prefer_wide_idx).sum := by
  apply List.sum_pos
  · intro w hw
    have := rawColWidths_forall_ge stringWidth data font_name font_size prefer_wide_idx w hw
    linarith
  · intro hnil
    have hlen := rawColWidths_length stringWidth data font_name font_size prefer_wide_idx
    rw [hnil] at hlen
    simp only [List.length_nil] at hlen
    omega

theorem sum_map_mul_const (l : List ℚ) (c : ℚ) :
    (l.map (fun w => w * c)).sum = l.sum * c := by
  induction l with
  | nil => simp
  | cons a t ih => simp [ih, add_mul]

/-- C3: for a Dataset with at least one column and any positive available
width, the width plan of `_auto_col_widths` sums exactly to the available
width (exactly, in rational arithmetic: each clamped width is scaled by
`avail_width / sum(clamped)`). -/
theorem auto_col_widths_sum_eq_avail (stringWidth : List Char → List Char → ℚ → ℚ)
    (data : List (List (List Char))) (font_name : List Char) (font_size : ℚ)
    (avail_width : ℚ) (prefer_wide_idx : Option Nat)
    (hcols : 0 < (data.headD []).length) (havail : 0 < avail_width) :
    (auto_col_widths stringWidth data font_name font_size avail_width prefer_wide_idx).sum
      = avail_width := by
  have hpos := rawColWidths_sum_pos stringWidth data font_name font_size prefer_wide_idx hcols
  have hne : (rawColWidths stringWidth data font_name font_size prefer_wide_idx).sum ≠ 0 :=
    ne_of_gt hpos
  unfold auto_col_widths
  simp only [if_neg hne]
  rw [sum_map_mul_const]
  field_simp

/-- C3 witness: a one-column dataset with one row; the plan fills the
available width 170 exactly. -/
theorem auto_col_widths_sum_eq_avail_witness :
    (0 < (([[['a']], [['z']]] : List (List (List Char))).headD []).length) ∧
    ((0 : ℚ) < 170) ∧
    (auto_col_widths (fun _ _ _ => 1) [[['a']], [['z']]] ['f'] 9 170 none).sum = 170 :=
  ⟨by decide, by norm_num,
    auto_col_widths_sum_eq_avail (fun _ _ _ => 1) [[['a']], [['z']]] ['f'] 9 170 none
      (by decide) (by norm_num)⟩

/-- C2 counterexample: the returned plan is the clamped widths scaled by
`avail_width / sum(clamped)`; when the clamped widths cannot fit (19
columns of minimum width 40 against the landscape width used by the composer
`92520/127 ≈ 728.5`), the scaling pushes every width below the configured
minimum of 40.  The claim "every element ≥ 40" fails. -/
theorem auto_col_widths_below_min :
    ¬ ∀ w ∈ auto_col_widths (fun _ _ _ => 0)
        [List.replicate 19 ['h'], List.replicate 19 ['x']] ['f'] 9
        (docAvailWidth true (List.replicate 19 ['h'])) none, 40 ≤ w := by
  intro hall
  have hplan : auto_col_widths (fun _ _ _ => 0)
      [List.replicate 19 ['h'], List.replicate 19 ['x']] ['f'] 9
      (docAvailWidth true (List.replicate 19 ['h'])) none
      = List.replicate 19 ((92520 : ℚ) / 2413) := by
    norm_num [auto_col_widths, rawColWidths, measuredMaxWidths, maxInto,
      docAvailWidth, composerPagesize, landscapeOf, A4, cmPt,
      List.replicate, List.range, List.range.loop]
  have hmem : ((92520 : ℚ) / 2413) ∈ auto_col_widths (fun _ _ _ => 0)
      [List.replicate 19 ['h'], List.replicate 19 ['x']] ['f'] 9
      (docAvailWidth true (List.replicate 19 ['h'])) none := by
    rw [hplan]
    exact List.mem_replicate.mpr ⟨by norm_num, rfl⟩
  have := hall _ hmem
  norm_num at this

/-- C2 amended: every clamped pre-scaling width is at least the configured
minimum 40, and every element of the returned (scaled) plan is at least 40
provided the available width is at least the sum of the clamped widths;
when the clamped widths overflow the available width, the uniform
down-scaling takes elements below 40 (see the counterexample). -/
theorem auto_col_widths_min_width (stringWidth : List Char → List Char → ℚ → ℚ)
    (data : List (List (List Char))) (font_name : List Char) (font_size : ℚ)
    (avail_width : ℚ) (prefer_wide_idx : Option Nat)
    (hcols : 0 < (data.headD []).length)
    (hfit : (rawColWidths stringWidth data font_name font_size prefer_wide_idx).sum
      ≤ avail_width) :
    (∀ w ∈ rawColWidths stringWidth data font_name font_size prefer_wide_idx, 40 ≤ w) ∧
    ∀ w ∈ auto_col_widths stringWidth data font_name font_size avail_width prefer_wide_idx,
      40 ≤ w := by
  refine ⟨rawColWidths_forall_ge stringWidth data font_name font_size prefer_wide_idx, ?_⟩
  intro w hw
  have hpos := rawColWidths_sum_pos stringWidth data font_name font_size prefer_wide_idx hcols
  have hne : (rawColWidths stringWidth data font_name font_size prefer_wide_idx).sum ≠ 0 :=
    ne_of_gt hpos
  unfold auto_col_widths at hw
  simp only [if_neg hne, List.mem_map] at hw
  obtain ⟨r, hr, rfl⟩ := hw
  have h40 : 40 ≤ r := rawColWidths_forall_ge stringWidth data font_name font_size
    prefer_wide_idx r hr
  have hscale : 1 ≤ avail_width /
      (rawColWidths stringWidth data font_name font_size prefer_wide_idx).sum :=
    (one_le_div hpos).mpr hfit
  calc (40 : ℚ) ≤ r := h40
    _ = r * 1 := (mul_one r).symm
    _ ≤ r * (avail_width /
          (rawColWidths stringWidth data font_name font_size prefer_wide_idx).sum) := by
        apply mul_le_mul_of_nonneg_left hscale
        linarith

/-- C2 amended witness: two columns whose clamped widths (40 each) fit in
the available width 200; all plan elements are at least 40. -/
theorem auto_col_widths_min_width_witness :
    (0 < (([[['a'], ['b']], [['x'], ['y']]] : List (List (List Char))).headD []).length) ∧
    ((rawColWidths (fun _ _ _ => 1) [[['a'], ['b']], [['x'], ['y']]] ['f'] 9 none).sum ≤ 200) ∧
    ((∀ w ∈ rawColWidths (fun _ _ _ => 1) [[['a'], ['b']], [['x'], ['y']]] ['f'] 9 none,
        40 ≤ w) ∧
      ∀ w ∈ auto_col_widths (fun _ _ _ => 1) [[['a'], ['b']], [['x'], ['y']]] ['f'] 9 200 none,
        40 ≤ w) :=
  ⟨by decide,
    by
      have h2 : rawColWidths (fun _ _ _ => 1) [[['a'], ['b']], [['x'], ['y']]] ['f'] 9 none
          = [40, 40] := by
        norm_num [rawColWidths, measuredMaxWidths, maxInto,
          List.range, List.range.loop]
      rw [h2]
      norm_num,
    auto_col_widths_min_width (fun _ _ _ => 1) [[['a'], ['b']], [['x'], ['y']]] ['f'] 9 200 none
      (by decide)
      (by
        have h2 : rawColWidths (fun _ _ _ => 1) [[['a'], ['b']], [['x'], ['y']]] ['f'] 9 none
            = [40, 40] := by
          norm_num [rawColWidths, measuredMaxWidths, maxInto,
            List.range, List.range.loop]
        rw [h2]
        norm_num)⟩

/-! Section: Table Chunker lemmas (C5) -/

theorem chunkLoop_succ (chunk_size : Nat) (mk : List (List (List Char)) → Flowable)
    (fuel : Nat) (rows : List (List (List Char))) :
    chunkLoop chunk_size mk (fuel + 1) rows =
      if rows.isEmpty then []
      else
        mk (rows.take chunk_size) :: .spacer ::
          ((if chunk_size < rows.length then [.pageBreak] else []) ++
            chunkLoop chunk_size mk fuel (rows.drop chunk_size)) := rfl

theorem chunkLoop_nil (chunk_size : Nat) (mk : List (List (List Char)) → Flowable)
    (fuel : Nat) : chunkLoop chunk_size mk fuel [] = [] := by
  cases fuel <;> rfl

theorem list_isEmpty_false {α : Type} {l : List α} (h : 0 < l.length) :
    l.isEmpty = false := by
  cases l with
  | nil => simp at h
  | cons a t => rfl

/-- Three iterations of the chunk loop on a `2 * 100 + 1`-row list: two full
batches, then one of size 1, with a page break after each full batch and
none after the last. -/
theorem buildChunks_boundary (mk : List (List (List Char)) → Flowable)
    (rows : List (List (List Char))) (h : rows.length = 2 * 100 + 1) :
    buildChunks 100 mk rows =
      [mk (rows.take 100), .spacer, .pageBreak,
       mk ((rows.drop 100).take 100), .spacer, .pageBreak,
       mk (rows.drop 200), .spacer] := by
  have h201 : rows.length = 201 := by omega
  have hne : rows.isEmpty = false := list_isEmpty_false (by omega)
  have h1len : (rows.drop 100).length = 101 := by rw [List.length_drop, h201]
  have h1ne : (rows.drop 100).isEmpty = false := list_isEmpty_false (by omega)
  have hdd : (rows.drop 100).drop 100 = rows.drop 200 := by
    rw [List.drop_drop]
  have h2len : (rows.drop 200).length = 1 := by rw [List.length_drop, h201]
  obtain ⟨a, ha⟩ := List.length_eq_one.mp h2len
  have s1 : chunkLoop 100 mk 201 rows =
      if rows.isEmpty then []
      else
        mk (rows.take 100) :: .spacer ::
          ((if 100 < rows.length then [.pageBreak] else []) ++
            chunkLoop 100 mk 200 (rows.drop 100)) :=
    chunkLoop_succ 100 mk 200 rows
  have s2 : chunkLoop 100 mk 200 (rows.drop 100) =
      if (rows.drop 100).isEmpty then []
      else
        mk ((rows.drop 100).take 100) :: .spacer ::
          ((if 100 < (rows.drop 100).length then [.pageBreak] else []) ++
            chunkLoop 100 mk 199 ((rows.drop 100).drop 100)) :=
    chunkLoop_succ 100 mk 199 (rows.drop 100)
  have s3 : chunkLoop 100 mk 199 [a] =
      if ([a] : List (List (List Char))).isEmpty then []
      else
        mk (([a] : List (List (List Char))).take 100) :: .spacer ::
          ((if 100 < ([a] : List (List (List Char))).length then [.pageBreak] else []) ++
            chunkLoop 100 mk 198 (([a] : List (List (List Char))).drop 100)) :=
    chunkLoop_succ 100 mk 198 [a]
  unfold buildChunks
  rw [h201, s1, s2, hdd, ha, s3]
  simp [hne, h1ne, h201, h1len, chunkLoop_nil]

/-- C5: on a Dataset with exactly `2 * chunk_size + 1` rows (`chunk_size =
100`), the element list of the composer is the title and spacer followed by
exactly three table batches of sizes 100, 100 and 1 — each preceded-none /
followed by a spacer, with a page break after each batch except the last —
and every batch carries the paragraphized header row as its first row and
`repeatRows = 1`. -/
theorem dataframe_chunking_boundary (stringWidth : List Char → List Char → ℚ → ℚ)
    (shaper : List Char → List Char) (font_name title : List Char) (df : Dataset)
    (force_landscape : Bool) (headers : List (List Char)) (cw : List ℚ)
    (mk : List (List (List Char)) → Flowable) (rows : List (List (List Char)))
    (hh : headers = shapedHeaders shaper df)
    (hcw : cw = composerColWidths stringWidth shaper font_name df force_landscape)
    (hmk : mk = make_table_chunk shaper headers cw)
    (hrows : rows = shapedRows shaper df)
    (hlen : df.rows.length = 2 * 100 + 1) :
    mainElements stringWidth shaper font_name title df force_landscape =
      [.par ⟨shape_if_rtl shaper title, title_style⟩, .spacer,
       mk (rows.take 100), .spacer, .pageBreak,
       mk ((rows.drop 100).take 100), .spacer, .pageBreak,
       mk (rows.drop 200), .spacer] ∧
    (rows.take 100).length = 100 ∧
    ((rows.drop 100).take 100).length = 100 ∧
    (rows.drop 200).length = 1 ∧
    (∀ chunk, tableFirstRow (mk chunk)
        = some (headers.map (fun h2 => paragraphize shaper (some h2) base_cell ar_cell)) ∧
      tableRowCount (mk chunk) = some (chunk.length + 1) ∧
      tableRepeatRows (mk chunk) = some 1) := by
  subst hh hcw hmk hrows
  have hrlen : (shapedRows shaper df).length = 2 * 100 + 1 := by
    simpa [shapedRows] using hlen
  refine ⟨?_, ?_, ?_, ?_, ?_⟩
  · unfold mainElements
    rw [buildChunks_boundary _ _ hrlen]
  · rw [List.length_take, hrlen]
    omega
  · rw [List.length_take, List.length_drop, hrlen]
    omega
  · rw [List.length_drop, hrlen]
  · intro chunk
    refine ⟨rfl, ?_, rfl⟩
    simp [make_table_chunk, tableRowCount]

/-- C5 witness dataset: one column, `2 * 100 + 1` identical rows. -/
def dfW5 : Dataset :=
  ⟨[['c']], List.replicate 201 [['x']]⟩

/-- C5 witness: the boundary scenario at a concrete 201-row dataset. -/
theorem dataframe_chunking_boundary_witness :
    (dfW5.rows.length = 2 * 100 + 1) ∧
    (mainElements (fun _ _ _ => 0) id ['f'] ['t'] dfW5 true =
      [.par ⟨shape_if_rtl id ['t'], title_style⟩, .spacer,
       make_table_chunk id (shapedHeaders id dfW5)
         (composerColWidths (fun _ _ _ => 0) id ['f'] dfW5 true)
         ((shapedRows id dfW5).take 100), .spacer, .pageBreak,
       make_table_chunk id (shapedHeaders id dfW5)
         (composerColWidths (fun _ _ _ => 0) id ['f'] dfW5 true)
         (((shapedRows id dfW5).drop 100).take 100), .spacer, .pageBreak,
       make_table_chunk id (shapedHeaders id dfW5)
         (composerColWidths (fun _ _ _ => 0) id ['f'] dfW5 true)
         ((shapedRows id dfW5).drop 200), .spacer] ∧
    ((shapedRows id dfW5).take 100).length = 100 ∧
    (((shapedRows id dfW5).drop 100).take 100).length = 100 ∧
    ((shapedRows id dfW5).drop 200).length = 1 ∧
    (∀ chunk, tableFirstRow (make_table_chunk id (shapedHeaders id dfW5)
          (composerColWidths (fun _ _ _ => 0) id ['f'] dfW5 true) chunk)
        = some ((shapedHeaders id dfW5).map
            (fun h2 => paragraphize id (some h2) base_cell ar_cell)) ∧
      tableRowCount (make_table_chunk id (shapedHeaders id dfW5)
          (composerColWidths (fun _ _ _ => 0) id ['f'] dfW5 true) chunk)
        = some (chunk.length + 1) ∧
      tableRepeatRows (make_table_chunk id (shapedHeaders id dfW5)
          (composerColWidths (fun _ _ _ => 0) id ['f'] dfW5 true) chunk) = some 1)) :=
  ⟨by simp only [dfW5, List.length_replicate],
    dataframe_chunking_boundary (fun _ _ _ => 0) id ['f'] ['t'] dfW5 true
      (shapedHeaders id dfW5) (composerColWidths (fun _ _ _ => 0) id ['f'] dfW5 true)
      (make_table_chunk id (shapedHeaders id dfW5)
        (composerColWidths (fun _ _ _ => 0) id ['f'] dfW5 true))
      (shapedRows id dfW5) rfl rfl rfl rfl (by simp only [dfW5, List.length_replicate])⟩

/-! Section: Font Resolver lemmas (C8) -/

/-- The first candidate that is nonempty, exists on disk, and loads — the
one the Font Resolver contract of the spec nominates as the winner. -/
def firstLoadable (pathExists register : List Char → Bool) :
    List (List Char) → Option (List Char)
  | [] => none
  | p :: rest =>
    if !p.isEmpty && pathExists p && register p then some p
    else firstLoadable pathExists register rest

theorem firstLoadable_mem (pathExists register : List Char → Bool)
    (cs : List (List Char)) (p : List Char)
    (h : firstLoadable pathExists register cs = some p) : p ∈ cs := by
  induction cs with
  | nil => simp [firstLoadable] at h
  | cons q rest ih =>
    unfold firstLoadable at h
    by_cases hq : (!q.isEmpty && pathExists q && register q) = true
    · rw [if_pos hq] at h
      injection h with h
      subst h
      exact List.mem_cons_self q rest
    · rw [if_neg hq] at h
      exact List.mem_cons_of_mem q (ih h)

theorem resolveFont_name_eq (pathExists register : List Char → Bool)
    (cs : List (List Char)) :
    (resolveFont pathExists register cs).1 =
      (match firstLoadable pathExists register cs with
       | some p => pySplitextStem (pyBasename p)
       | none => "Helvetica".toList) := by
  induction cs with
  | nil => rfl
  | cons p rest ih =>
    by_cases h1 : (!p.isEmpty && pathExists p) = true
    · by_cases h2 : register p = true
      · have hc : (!p.isEmpty && pathExists p && register p) = true := by
          simp [h1, h2]
        unfold resolveFont firstLoadable
        rw [if_pos h1, if_pos h2, if_pos hc]
      · have hc : ¬ (!p.isEmpty && pathExists p && register p) = true := by
          simp [h2]
        unfold resolveFont firstLoadable
        rw [if_pos h1, if_neg h2, if_neg hc]
        exact ih
    · have hc : ¬ (!p.isEmpty && pathExists p && register p) = true := by
        simp only [Bool.and_eq_true] at h1 ⊢
        tauto
      unfold resolveFont firstLoadable
      rw [if_neg h1, if_neg hc]
      exact ih

/-- C8: the Font Resolver always returns a (nonempty) font name — the stem
of the first existing, loadable candidate, or the built-in `"Helvetica"`
when none loads — caches it, and a second call with the populated cache
returns the cached name with no further registration attempts. -/
theorem ensure_font_registered_contract (candidates : List (List Char))
    (pathExists register : List Char → Bool)
    (hnames : ∀ p ∈ candidates, pySplitextStem (pyBasename p) ≠ []) :
    (ensure_font_registered candidates pathExists register none).1 ≠ [] ∧
    (ensure_font_registered candidates pathExists register none).1 =
      (match firstLoadable pathExists register candidates with
       | some p => pySplitextStem (pyBasename p)
       | none => "Helvetica".toList) ∧
    (ensure_font_registered candidates pathExists register none).2.1 =
      some (ensure_font_registered candidates pathExists register none).1 ∧
    ensure_font_registered candidates pathExists register
        (ensure_font_registered candidates pathExists register none).2.1 =
      ((ensure_font_registered candidates pathExists register none).1,
        some (ensure_font_registered candidates pathExists register none).1, []) := by
  have hname := resolveFont_name_eq pathExists register candidates
  have hne : (resolveFont pathExists register candidates).1 ≠ [] := by
    rw [hname]
    cases hf : firstLoadable pathExists register candidates with
    | none => simp
    | some p => exact hnames p (firstLoadable_mem pathExists register candidates p hf)
  have hfirst : (ensure_font_registered candidates pathExists register none).1
      = (resolveFont pathExists register candidates).1 := rfl
  refine ⟨by rw [hfirst]; exact hne, by rw [hfirst]; exact hname, rfl, ?_⟩
  have hcache : (ensure_font_registered candidates pathExists register none).2.1
      = some (resolveFont pathExists register candidates).1 := rfl
  rw [hcache, hfirst]
  have hb : (resolveFont pathExists register candidates).1.isEmpty = false :=
    list_isEmpty_false (List.length_pos.mpr hne)
  simp [ensure_font_registered, hb]

/-- C8 witness: only the third fixed candidate exists and loads; the
resolver returns `"DejaVuSans"`, caches it, and the second call performs no
registration. -/
theorem ensure_font_registered_contract_witness :
    (∀ p ∈ FONT_CANDIDATES "winfont.ttf".toList,
      pySplitextStem (pyBasename p) ≠ []) ∧
    ((ensure_font_registered (FONT_CANDIDATES "winfont.ttf".toList)
        (fun p => decide (p = "static/fonts/DejaVuSans.ttf".toList)) (fun _ => true) none).1 ≠ [] ∧
    (ensure_font_registered (FONT_CANDIDATES "winfont.ttf".toList)
        (fun p => decide (p = "static/fonts/DejaVuSans.ttf".toList)) (fun _ => true) none).1 =
      (match firstLoadable (fun p => decide (p = "static/fonts/DejaVuSans.ttf".toList))
          (fun _ => true) (FONT_CANDIDATES "winfont.ttf".toList) with
       | some p => pySplitextStem (pyBasename p)
       | none => "Helvetica".toList) ∧
    (ensure_font_registered (FONT_CANDIDATES "winfont.ttf".toList)
        (fun p => decide (p = "static/fonts/DejaVuSans.ttf".toList)) (fun _ => true) none).2.1 =
      some (ensure_font_registered (FONT_CANDIDATES "winfont.ttf".toList)
        (fun p => decide (p = "static/fonts/DejaVuSans.ttf".toList)) (fun _ => true) none).1 ∧
    ensure_font_registered (FONT_CANDIDATES "winfont.ttf".toList)
        (fun p => decide (p = "static/fonts/DejaVuSans.ttf".toList)) (fun _ => true)
        (ensure_font_registered (FONT_CANDIDATES "winfont.ttf".toList)
          (fun p => decide (p = "static/fonts/DejaVuSans.ttf".toList)) (fun _ => true) none).2.1 =
      ((ensure_font_registered (FONT_CANDIDATES "winfont.ttf".toList)
          (fun p => decide (p = "static/fonts/DejaVuSans.ttf".toList)) (fun _ => true) none).1,
        some (ensure_font_registered (FONT_CANDIDATES "winfont.ttf".toList)
          (fun p => decide (p = "static/fonts/DejaVuSans.ttf".toList)) (fun _ => true) none).1, [])) :=
  ⟨by decide,
    ensure_font_registered_contract (FONT_CANDIDATES "winfont.ttf".toList)
      (fun p => decide (p = "static/fonts/DejaVuSans.ttf".toList)) (fun _ => true)
      (by decide)⟩

/-! Section: Fallback Guard lemmas (C1, C10) -/

theorem tableFree_emptyElements (shaper : List Char → List Char) (title : List Char) :
    tableFree (emptyElements shaper title) := by
  intro f hf
  simp only [emptyElements, List.mem_cons, List.not_mem_nil, or_false] at hf
  rcases hf with h | h | h <;> subst h <;> rfl

theorem tableFree_fallbackElements (shaper : List Char → List Char) (e : List Char)
    (rows : List (List (List Char))) :
    tableFree (fallbackElements shaper e rows) := by
  intro f hf
  simp only [fallbackElements, List.mem_append, List.mem_cons, List.not_mem_nil, or_false,
    List.mem_map] at hf
  rcases hf with (h | h | h) | ⟨r, _, h⟩ <;> subst h <;> rfl

theorem tableFree_fallback2Elements (shaper : List Char → List Char) (e : List Char) :
    tableFree (fallback2Elements shaper e) := by
  intro f hf
  simp only [fallback2Elements, List.mem_cons, List.not_mem_nil, or_false] at hf
  rcases hf with h | h <;> subst h <;> rfl

/-- Predicate matching `Except.isOk`, spelled out. -/
def exceptIsOk : Except (List Char) (List Nat) → Bool
  | .ok _ => true
  | .error _ => false

/-- C1: if the renderer never fails on a table-free element list and never
returns empty bytes on success, then `dataframe_to_pdf_bytes` returns
non-empty bytes for *every* title and Dataset (the fallback guard retries a
failing build on a table-free document), and on an empty Dataset it builds
exactly the title, a spacer and the `"No data available"` paragraph — a
table-free list. -/
theorem dataframe_to_pdf_bytes_nonempty_guarantee (now : PyDateTime)
    (shaper : List Char → List Char) (stringWidth : List Char → List Char → ℚ → ℚ)
    (build : List Flowable → Except (List Char) (List Nat))
    (chunkFail : Option (List Char)) (font_name title : List Char) (df : Dataset)
    (force_landscape : Bool)
    (hok : ∀ es, tableFree es → exceptIsOk (build es) = true)
    (hne : ∀ es b, build es = .ok b → b ≠ []) :
    (∃ b, dataframe_to_pdf_bytes now shaper stringWidth build chunkFail font_name title df
        force_landscape = .ok b ∧ b ≠ []) ∧
    (dfEmpty df = true →
      dataframe_to_pdf_bytes now shaper stringWidth build chunkFail font_name title df
          force_landscape = build (emptyElements shaper title) ∧
        tableFree (emptyElements shaper title)) := by
  constructor
  · unfold dataframe_to_pdf_bytes
    by_cases hdf : dfEmpty df = true
    · rw [if_pos hdf]
      have h1 := hok _ (tableFree_emptyElements shaper title)
      cases hb : build (emptyElements shaper title) with
      | ok b => exact ⟨b, rfl, hne _ _ hb⟩
      | error e =>
        rw [hb] at h1
        exact absurd h1 (by simp [exceptIsOk])
    · rw [if_neg hdf]
      dsimp only
      cases hb : build (match chunkFail with
          | none => mainElements stringWidth shaper font_name title df force_landscape
          | some e => fallbackElements shaper e (shapedRows shaper df)) with
      | ok b => exact ⟨b, rfl, hne _ _ hb⟩
      | error e2 =>
        have h2 := hok _ (tableFree_fallback2Elements shaper e2)
        cases hb2 : build (fallback2Elements shaper e2) with
        | ok b2 => exact ⟨b2, hb2, hne _ _ hb2⟩
        | error e3 =>
          rw [hb2] at h2
          exact absurd h2 (by simp [exceptIsOk])
  · intro hdf
    refine ⟨?_, tableFree_emptyElements shaper title⟩
    unfold dataframe_to_pdf_bytes
    rw [if_pos hdf]

/-- C1 witness dataset: the empty Dataset. -/
def dfW1 : Dataset :=
  ⟨[], []⟩

/-- C1 witness: with a renderer that always succeeds with a one-byte
buffer, the composer returns non-empty bytes on the empty Dataset, built
from the title + "No data available" elements. -/
theorem dataframe_to_pdf_bytes_nonempty_guarantee_witness :
    (∀ es, tableFree es →
      exceptIsOk ((fun _ : List Flowable =>
        (Except.ok [37] : Except (List Char) (List Nat))) es) = true) ∧
    (∀ es b, (fun _ : List Flowable =>
        (Except.ok [37] : Except (List Char) (List Nat))) es = .ok b → b ≠ []) ∧
    ((∃ b, dataframe_to_pdf_bytes ⟨2026, 1, 1, 0, 0⟩ id (fun _ _ _ => 0)
        (fun _ => .ok [37]) none ['f'] ['t'] dfW1 true = .ok b ∧ b ≠ []) ∧
      (dfEmpty dfW1 = true →
        dataframe_to_pdf_bytes ⟨2026, 1, 1, 0, 0⟩ id (fun _ _ _ => 0)
            (fun _ => .ok [37]) none ['f'] ['t'] dfW1 true
          = (fun _ : List Flowable => (Except.ok [37] : Except (List Char) (List Nat)))
              (emptyElements id ['t']) ∧
        tableFree (emptyElements id ['t']))) :=
  ⟨fun _ _ => rfl,
    fun es b hb => by
      injection hb with h
      subst h
      simp,
    dataframe_to_pdf_bytes_nonempty_guarantee ⟨2026, 1, 1, 0, 0⟩ id (fun _ _ _ => 0)
      (fun _ => .ok [37]) none ['f'] ['t'] dfW1 true (fun _ _ => rfl)
      (fun es b hb => by
        injection hb with h
        subst h
        simp)⟩

/-- C10: when the chunk-construction loop raises, the degraded document is
three notice paragraphs followed by the `" | "`-joined paragraphs of at
most the first 50 (shaped) data rows — rows beyond the 50th are dropped;
and if the build of the rebuilt document itself fails, the final attempt renders
the two-paragraph second-level fallback, which carries no data rows (and no
tables) at all. -/
theorem fallback_guard_degraded_content (now : PyDateTime)
    (shaper : List Char → List Char) (stringWidth : List Char → List Char → ℚ → ℚ)
    (build : List Flowable → Except (List Char) (List Nat))
    (font_name title : List Char) (df : Dataset) (force_landscape : Bool)
    (e e2 : List Char)
    (hdf : dfEmpty df = false)
    (hb : build (fallbackElements shaper e (shapedRows shaper df)) = .error e2) :
    dataframe_to_pdf_bytes now shaper stringWidth build (some e) font_name title df
        force_landscape = build (fallback2Elements shaper e2) ∧
    fallbackElements shaper e (shapedRows shaper df) =
      [.par ⟨shape_if_rtl shaper "⚠️ Error generating table:".toList, normal_style⟩,
       .par ⟨shape_if_rtl shaper e, normal_style⟩,
       .par ⟨shape_if_rtl shaper "Partial data shown below:".toList, normal_style⟩] ++
        ((shapedRows shaper df).take 50).map
          (fun r => .par ⟨shape_if_rtl shaper (List.intercalate " | ".toList r),
            normal_style⟩) ∧
    ((shapedRows shaper df).take 50).length = min 50 df.rows.length ∧
    fallback2Elements shaper e2 =
      [.par ⟨shape_if_rtl shaper
          "Report generation failed due to layout limits.".toList, normal_style⟩,
       .par ⟨shape_if_rtl shaper e2, normal_style⟩] ∧
    tableFree (fallback2Elements shaper e2) := by
  refine ⟨?_, rfl, ?_, rfl, tableFree_fallback2Elements shaper e2⟩
  · unfold dataframe_to_pdf_bytes
    rw [if_neg (by simp [hdf])]
    dsimp only
    rw [hb]
  · rw [List.length_take]
    congr 1
    simp [shapedRows]

/-- C10 witness dataset: one column, one row. -/
def dfW10 : Dataset :=
  ⟨[['c']], [[['x']]]⟩

/-- C10 witness: a renderer that always raises engages both fallback
levels; the final attempt is the two-paragraph second-level document. -/
theorem fallback_guard_degraded_content_witness :
    (dfEmpty dfW10 = false) ∧
    ((fun _ : List Flowable => (Except.error ['E'] : Except (List Char) (List Nat)))
        (fallbackElements id ['B'] (shapedRows id dfW10)) = .error ['E']) ∧
    (dataframe_to_pdf_bytes ⟨2026, 1, 1, 0, 0⟩ id (fun _ _ _ => 0)
        (fun _ => .error ['E']) (some ['B']) ['f'] ['t'] dfW10 true
      = (fun _ : List Flowable => (Except.error ['E'] : Except (List Char) (List Nat)))
          (fallback2Elements id ['E']) ∧
    fallbackElements id ['B'] (shapedRows id dfW10) =
      [.par ⟨shape_if_rtl id "⚠️ Error generating table:".toList, normal_style⟩,
       .par ⟨shape_if_rtl id ['B'], normal_style⟩,
       .par ⟨shape_if_rtl id "Partial data shown below:".toList, normal_style⟩] ++
        ((shapedRows id dfW10).take 50).map
          (fun r => .par ⟨shape_if_rtl id (List.intercalate " | ".toList r),
            normal_style⟩) ∧
    ((shapedRows id dfW10).take 50).length = min 50 dfW10.rows.length ∧
    fallback2Elements id ['E'] =
      [.par ⟨shape_if_rtl id
          "Report generation failed due to layout limits.".toList, normal_style⟩,
       .par ⟨shape_if_rtl id ['E'], normal_style⟩] ∧
    tableFree (fallback2Elements id ['E'])) :=
  ⟨rfl, rfl,
    fallback_guard_degraded_content ⟨2026, 1, 1, 0, 0⟩ id (fun _ _ _ => 0)
      (fun _ => .error ['E']) ['f'] ['t'] dfW10 true ['B'] ['E'] rfl rfl⟩

end Exports
